import Mathlib

/-!
Verification development for the Locus backend (src/backend/main.py).

The backend's single interesting component is `ai_stream_generator`, an
async generator that yields NDJSON lines (each line is `json.dumps` of a
Python dict plus a newline) interleaved with `asyncio.sleep` pauses.  We
embed it shallowly: the generator becomes a pure function from the prompt
string to a finite list of stream items, where a stream item is either a
yielded string or a scripted sleep of a rational number of time units.
`json.dumps` with its default options, in particular the default
separators and `ensure_ascii=True` escaping of non-ASCII characters, is
modelled faithfully, as is the mock itinerary data.  Python floats are
modelled by exact decimal values; every float literal appearing in the
source round-trips exactly through its shortest decimal representation,
which is what `repr` and hence `json.dumps` emit.
-/

set_option maxRecDepth 100000

namespace Locus

/-- JSON values, as produced by Python dict/list/str/number literals.
Numbers are exact decimals `m / 10^e`; `e = 0` means an integer, which
`json.dumps` serializes without a decimal point. -/
inductive Json where
  | str (s : String)
  | num (m : Int) (e : Nat)
  | bool (b : Bool)
  | null
  | arr (elems : List Json)
  | obj (fields : List (String × Json))

/-- Lowercase hexadecimal digit, as used by Python's `\uXXXX` escapes. -/
def hexDigit (n : Nat) : Char :=
  if n < 10 then Char.ofNat (48 + n) else Char.ofNat (87 + n)

/-- Four lowercase hex digits of a number below 0x10000. -/
def hex4 (n : Nat) : List Char :=
  [hexDigit (n / 4096 % 16), hexDigit (n / 256 % 16), hexDigit (n / 16 % 16), hexDigit (n % 16)]

/-- Escaping of one character inside a JSON string literal, following
CPython's `json` encoder with `ensure_ascii=True`: printable ASCII other
than quote and backslash is kept, the short escapes cover the usual
control characters, every other character becomes `\uXXXX` (a surrogate
pair above the BMP). -/
def escapeChar (c : Char) : List Char :=
  let n := c.toNat
  if c = '"' then ['\\', '"']
  else if c = '\\' then ['\\', '\\']
  else if c = '\n' then ['\\', 'n']
  else if c = '\t' then ['\\', 't']
  else if c = '\r' then ['\\', 'r']
  else if c = '\x08' then ['\\', 'b']
  else if c = '\x0c' then ['\\', 'f']
  else if 0x20 ≤ n ∧ n ≤ 0x7e then [c]
  else if n < 0x10000 then '\\' :: 'u' :: hex4 n
  else
    let v := n - 0x10000
    ('\\' :: 'u' :: hex4 (0xd800 + v / 1024)) ++ ('\\' :: 'u' :: hex4 (0xdc00 + v % 1024))

/-- A JSON string literal: quote, escaped characters, quote. -/
def encodeStr (s : String) : String :=
  "\"" ++ String.mk (s.data.foldr (fun c acc => escapeChar c ++ acc) []) ++ "\""

/-- The decimal representation of `m / 10^e` as printed by Python's
`repr` on the (exactly representable, already-shortest) number: digits
with a decimal point before the last `e` digits, no point when `e = 0`. -/
def encodeNum (m : Int) (e : Nat) : String :=
  let sign := if m < 0 then "-" else ""
  let ds := (toString m.natAbs).data
  if e = 0 then sign ++ String.mk ds
  else
    let ds := if ds.length ≤ e then List.replicate (e + 1 - ds.length) '0' ++ ds else ds
    sign ++ String.mk (ds.take (ds.length - e)) ++ "." ++ String.mk (ds.drop (ds.length - e))

mutual

/-- `json.dumps` with default options: separators `", "` and `": "`,
`ensure_ascii=True`. -/
def dumps : Json → String
  | .str s => encodeStr s
  | .num m e => encodeNum m e
  | .bool b => if b then "true" else "false"
  | .null => "null"
  | .arr elems => "[" ++ dumpsElems elems ++ "]"
  | .obj fields => "\x7b" ++ dumpsFields fields ++ "\x7d"

/-- Comma-space separated array elements. -/
def dumpsElems : List Json → String
  | [] => ""
  | [x] => dumps x
  | x :: y :: rest => dumps x ++ ", " ++ dumpsElems (y :: rest)

/-- Comma-space separated `"key": value` pairs. -/
def dumpsFields : List (String × Json) → String
  | [] => ""
  | [(k, v)] => encodeStr k ++ ": " ++ dumps v
  | (k, v) :: kv :: rest => encodeStr k ++ ": " ++ dumps v ++ ", " ++ dumpsFields (kv :: rest)

end

/-- An exact decimal number `m / 10^e`, the model of a Python float as it
appears in this source: every float literal there is its own shortest
`repr`. -/
structure Decimal where
  m : Int
  e : Nat
deriving DecidableEq, Repr

/-- The rational number a `Decimal` denotes. -/
def Decimal.toRat (d : Decimal) : ℚ :=
  d.m / 10 ^ d.e

/-- Mirrors the pydantic `Location` model. -/
structure Location where
  name : String
  lat : Decimal
  lng : Decimal
  description : String
deriving DecidableEq, Repr

/-- Mirrors the pydantic `DayPlan` model. -/
structure DayPlan where
  day : Int
  locations : List Location
  summary : String
deriving DecidableEq, Repr

/-- The baked-in mock itinerary `MOCK_TOKYO_TRIP` from the source.  The
source literals `35.7100` and `139.7100` denote the same floats as
`35.71` and `139.71`, and `repr`, hence `json.dumps`, prints the latter,
so they are stored normalized. -/
def MOCK_TOKYO_TRIP : List DayPlan :=
  [ { day := 1
    , summary := "抵達東京，探索淺草文化"
    , locations :=
      [ { name := "成田機場", lat := ⟨357719, 4⟩, lng := ⟨1403929, 4⟩, description := "抵達日本" }
      , { name := "淺草寺", lat := ⟨357147, 4⟩, lng := ⟨1397967, 4⟩, description := "東京最古老的寺廟，雷門打卡" }
      , { name := "晴空塔", lat := ⟨3571, 2⟩, lng := ⟨1398107, 4⟩, description := "俯瞰東京夜景" } ] }
  , { day := 2
    , summary := "潮流與購物的一天"
    , locations :=
      [ { name := "澀谷十字路口", lat := ⟨356594, 4⟩, lng := ⟨1397005, 4⟩, description := "世界上最繁忙的十字路口" }
      , { name := "明治神宮", lat := ⟨356763, 4⟩, lng := ⟨1396993, 4⟩, description := "市中心的森林綠洲" }
      , { name := "新宿御苑", lat := ⟨356851, 4⟩, lng := ⟨13971, 2⟩, description := "著名的賞櫻勝地" } ] }
  ]

/-- One step of the async generator: a yielded string, or an
`asyncio.sleep` for the given number of time units (an exact decimal:
the source literals are `1`, `1.5` and `0.8`). -/
inductive StreamItem where
  | yield (s : String)
  | sleep (t : Decimal)
deriving DecidableEq, Repr

/-- The JSON object a mock location dict denotes; the key order is the
dict literal's insertion order. -/
def locJson (loc : Location) : Json :=
  .obj [ ("name", .str loc.name), ("lat", .num loc.lat.m loc.lat.e)
       , ("lng", .num loc.lng.m loc.lng.e), ("description", .str loc.description) ]

/-- The inner `for loc in day_plan['locations']` loop: sleep 0.8, append
the location to the `current_locations` accumulator, then yield the
`chunk` dict.  The accumulator is threaded exactly as in the source even
though no yielded value reads it. -/
def emitLocs (day_plan : DayPlan) (current_locations : List Location) :
    List Location → List StreamItem
  | [] => []
  | loc :: rest =>
    let current_locations := current_locations ++ [loc]
    let chunk : Json := .obj
      [ ("type", .str "data")
      , ("day", .num day_plan.day 0)
      , ("location", locJson loc)
      , ("summary", .str day_plan.summary) ]
    .sleep ⟨8, 1⟩ :: .yield (dumps chunk ++ "\n") :: emitLocs day_plan current_locations rest

/-- One iteration of the outer `for day_plan in MOCK_TOKYO_TRIP` loop:
the per-day status line (an f-string interpolating the day index and
summary), then the inner loop started with an empty accumulator. -/
def emitDay (day_plan : DayPlan) : List StreamItem :=
  .yield (dumps (.obj
      [ ("type", .str "status")
      , ("content", .str ("正在規劃第 " ++ toString day_plan.day ++ " 天：" ++ day_plan.summary)) ]) ++ "\n")
    :: emitLocs day_plan [] day_plan.locations

/-- The outer loop over the days of the itinerary. -/
def emitDays : List DayPlan → List StreamItem
  | [] => []
  | d :: rest => emitDay d ++ emitDays rest

set_option linter.unusedVariables false in
/-- Shallow embedding of `ai_stream_generator`: the full trace of yields
and sleeps, in program order.  The `prompt` argument is accepted but
never read, exactly as in the source. -/
def ai_stream_generator (prompt : String) : List StreamItem :=
  [ .yield (dumps (.obj [("type", .str "status"), ("content", .str "正在分析您的旅遊需求...")]) ++ "\n")
  , .sleep ⟨1, 0⟩
  , .yield (dumps (.obj [("type", .str "status"), ("content", .str "正在搜尋東京熱門景點...")]) ++ "\n")
  , .sleep ⟨1, 0⟩
  , .yield (dumps (.obj
      [ ("type", .str "control")
      , ("action", .str "fly_to")
      , ("data", .obj [("lat", .num 356895 4), ("lng", .num 1396917 4), ("zoom", .num 10 0)]) ]) ++ "\n")
  , .sleep ⟨15, 1⟩ ]
  ++ emitDays MOCK_TOKYO_TRIP
  ++ [ .yield (dumps (.obj [("type", .str "status"), ("content", .str "行程規劃完成！")]) ++ "\n") ]

/-- The lines the HTTP response body is built from: the yielded strings
of the trace, in order. -/
def yields (trace : List StreamItem) : List String :=
  trace.filterMap fun item => match item with
    | .yield s => some s
    | .sleep _ => none

/-- The scripted sleeps of the trace, in order. -/
def sleepsOf (trace : List StreamItem) : List Decimal :=
  trace.filterMap fun item => match item with
    | .yield _ => none
    | .sleep t => some t

/-! ### An independent JSON parser

To check that each emitted line is valid JSON we parse it back with a
standalone recursive-descent parser over the character list, written from
the JSON grammar (not from the encoder), with explicit fuel for
termination. -/

/-- JSON whitespace. -/
def isWs (c : Char) : Bool :=
  c = ' ' || c = '\n' || c = '\t' || c = '\r'

/-- Drop leading JSON whitespace. -/
def skipWs : List Char → List Char
  | [] => []
  | c :: cs => if isWs c then skipWs cs else c :: cs

/-- Value of one hexadecimal digit. -/
def hexVal (c : Char) : Option Nat :=
  if '0' ≤ c ∧ c ≤ '9' then some (c.toNat - 48)
  else if 'a' ≤ c ∧ c ≤ 'f' then some (c.toNat - 87)
  else if 'A' ≤ c ∧ c ≤ 'F' then some (c.toNat - 70)
  else none

/-- Parse exactly four hex digits. -/
def parseHex4 : List Char → Option (Nat × List Char)
  | c0 :: c1 :: c2 :: c3 :: rest => do
    let v0 ← hexVal c0
    let v1 ← hexVal c1
    let v2 ← hexVal c2
    let v3 ← hexVal c3
    pure (((v0 * 16 + v1) * 16 + v2) * 16 + v3, rest)
  | _ => none

/-- Parse the body of a JSON string after the opening quote, handling
escape sequences including surrogate pairs; rejects raw control
characters and lone surrogates. -/
def parseStrBody : Nat → List Char → Option (List Char × List Char)
  | 0, _ => none
  | _ + 1, [] => none
  | fuel + 1, c :: cs =>
    if c = '"' then some ([], cs)
    else if c = '\\' then
      match cs with
      | [] => none
      | e :: cs2 =>
        let simple : Option Char :=
          if e = '"' then some '"'
          else if e = '\\' then some '\\'
          else if e = '/' then some '/'
          else if e = 'n' then some '\n'
          else if e = 't' then some '\t'
          else if e = 'r' then some '\r'
          else if e = 'b' then some '\x08'
          else if e = 'f' then some '\x0c'
          else none
        match simple with
        | some d =>
          match parseStrBody fuel cs2 with
          | some (s, rest) => some (d :: s, rest)
          | none => none
        | none =>
          if e = 'u' then
            match parseHex4 cs2 with
            | none => none
            | some (n, cs3) =>
              if h : n.isValidChar then
                match parseStrBody fuel cs3 with
                | some (s, rest) => some (Char.ofNatAux n h :: s, rest)
                | none => none
              else if 0xd800 ≤ n ∧ n < 0xdc00 then
                match cs3 with
                | '\\' :: 'u' :: cs4 =>
                  match parseHex4 cs4 with
                  | none => none
                  | some (lo, cs5) =>
                    if 0xdc00 ≤ lo ∧ lo < 0xe000 then
                      let cp := 0x10000 + (n - 0xd800) * 1024 + (lo - 0xdc00)
                      if h2 : cp.isValidChar then
                        match parseStrBody fuel cs5 with
                        | some (s, rest) => some (Char.ofNatAux cp h2 :: s, rest)
                        | none => none
                      else none
                    else none
                | _ => none
              else none
          else none
    else if c.toNat < 0x20 then none
    else
      match parseStrBody fuel cs with
      | some (s, rest) => some (c :: s, rest)
      | none => none

/-- A run of decimal digits. -/
def spanDigits : List Char → List Char × List Char
  | [] => ([], [])
  | c :: cs =>
    if c.isDigit then
      let (ds, rest) := spanDigits cs
      (c :: ds, rest)
    else ([], c :: cs)

/-- Numeric value of a digit run. -/
def digitsToNat (ds : List Char) : Nat :=
  ds.foldl (fun a c => a * 10 + (c.toNat - 48)) 0

/-- Parse a JSON number without an exponent part, as mantissa and
decimal-place count. -/
def parseNum (cs : List Char) : Option ((Int × Nat) × List Char) :=
  let (neg, cs1) := match cs with
    | '-' :: cs2 => (true, cs2)
    | _ => (false, cs)
  match spanDigits cs1 with
  | ([], _) => none
  | (ip, rest) =>
    match rest with
    | '.' :: rest3 =>
      match spanDigits rest3 with
      | ([], _) => none
      | (fp, rest4) =>
        let m := digitsToNat (ip ++ fp)
        some ((if neg then -(m : Int) else (m : Int), fp.length), rest4)
    | _ =>
      let m := digitsToNat ip
      some ((if neg then -(m : Int) else (m : Int), 0), rest)

mutual

/-- Parse one JSON value. -/
def parseVal : Nat → List Char → Option (Json × List Char)
  | 0, _ => none
  | fuel + 1, cs =>
    match skipWs cs with
    | '"' :: cs2 =>
      match parseStrBody (cs2.length + 1) cs2 with
      | some (s, rest) => some (.str (String.mk s), rest)
      | none => none
    | '\x7b' :: cs2 => parseObj fuel (skipWs cs2)
    | '[' :: cs2 => parseArr fuel (skipWs cs2)
    | 't' :: 'r' :: 'u' :: 'e' :: cs2 => some (.bool true, cs2)
    | 'f' :: 'a' :: 'l' :: 's' :: 'e' :: cs2 => some (.bool false, cs2)
    | 'n' :: 'u' :: 'l' :: 'l' :: cs2 => some (.null, cs2)
    | cs2 =>
      match parseNum cs2 with
      | some ((m, e), rest) => some (.num m e, rest)
      | none => none

/-- Parse an object body, positioned right after `\x7b` (whitespace
skipped). -/
def parseObj : Nat → List Char → Option (Json × List Char)
  | 0, _ => none
  | fuel + 1, cs =>
    match cs with
    | '\x7d' :: cs2 => some (.obj [], cs2)
    | _ =>
      match parseMembers fuel cs with
      | some (fields, rest) =>
        match skipWs rest with
        | '\x7d' :: rest2 => some (.obj fields, rest2)
        | _ => none
      | none => none

/-- Parse one or more comma-separated `"key": value` members. -/
def parseMembers : Nat → List Char → Option (List (String × Json) × List Char)
  | 0, _ => none
  | fuel + 1, cs =>
    match skipWs cs with
    | '"' :: cs2 =>
      match parseStrBody (cs2.length + 1) cs2 with
      | some (k, cs3) =>
        match skipWs cs3 with
        | ':' :: cs4 =>
          match parseVal fuel cs4 with
          | some (v, cs5) =>
            match skipWs cs5 with
            | ',' :: cs6 =>
              match parseMembers fuel cs6 with
              | some (fields, rest) => some ((String.mk k, v) :: fields, rest)
              | none => none
            | rest => some ([(String.mk k, v)], rest)
          | none => none
        | _ => none
      | none => none
    | _ => none

/-- Parse an array body, positioned right after `[` (whitespace
skipped). -/
def parseArr : Nat → List Char → Option (Json × List Char)
  | 0, _ => none
  | fuel + 1, cs =>
    match cs with
    | ']' :: cs2 => some (.arr [], cs2)
    | _ =>
      match parseElems fuel cs with
      | some (elems, rest) =>
        match skipWs rest with
        | ']' :: rest2 => some (.arr elems, rest2)
        | _ => none
      | none => none

/-- Parse one or more comma-separated array elements. -/
def parseElems : Nat → List Char → Option (List Json × List Char)
  | 0, _ => none
  | fuel + 1, cs =>
    match parseVal fuel cs with
    | some (v, cs2) =>
      match skipWs cs2 with
      | ',' :: cs3 =>
        match parseElems fuel cs3 with
        | some (elems, rest) => some (v :: elems, rest)
        | none => none
      | rest => some ([v], rest)
    | none => none

end

/-- Parse a whole NDJSON line: one JSON value with nothing but
whitespace (including the trailing newline) around it. -/
def parseLine (l : String) : Option Json :=
  match parseVal (l.length + 1) l.data with
  | some (j, rest) => if skipWs rest = [] then some j else none
  | none => none

/-! ### Extraction helpers over parsed lines -/

/-- Does the line parse as a JSON object (not merely as some value)? -/
def parsesAsObj (l : String) : Bool :=
  match parseLine l with
  | some (.obj _) => true
  | _ => false

/-- Field lookup in a parsed object. -/
def lookupField (j : Json) (k : String) : Option Json :=
  match j with
  | .obj fields => fields.lookup k
  | _ => none

/-- The key list of an object, in serialized order. -/
def keysOf (j : Json) : Option (List String) :=
  match j with
  | .obj fields => some (fields.map Prod.fst)
  | _ => none

/-- The `type` tag of an emitted line. -/
def typeOfLine (l : String) : Option String :=
  match (parseLine l).bind (lookupField · "type") with
  | some (.str t) => some t
  | _ => none

/-- The `content` string of a `status` line. -/
def contentOfLine (l : String) : Option String :=
  match (parseLine l).bind (lookupField · "content") with
  | some (.str c) => some c
  | _ => none

/-- The integer `day` field of a `data` line. -/
def dataDayOfLine (l : String) : Option Int :=
  if typeOfLine l = some "data" then
    match (parseLine l).bind (lookupField · "day") with
    | some (.num d 0) => some d
    | _ => none
  else none

/-- For a per-day `status` line, the announced day index, recovered from
the f-string text `正在規劃第 {day} 天：{summary}`. -/
def statusDayOfLine (l : String) : Option Int :=
  if typeOfLine l = some "status" then
    match contentOfLine l with
    | some c =>
      let cs := c.data
      if cs.take 6 = "正在規劃第 ".data then
        match spanDigits (cs.drop 6) with
        | ([], _) => none
        | (ds, _) => some (digitsToNat ds)
      else none
    | none => none
  else none

/-- Decode a parsed `location` object back into a `Location` record. -/
def jsonToLoc (j : Json) : Option Location :=
  match lookupField j "name", lookupField j "lat",
        lookupField j "lng", lookupField j "description" with
  | some (.str n), some (.num lm le), some (.num gm ge), some (.str d) =>
    some { name := n, lat := ⟨lm, le⟩, lng := ⟨gm, ge⟩, description := d }
  | _, _, _, _ => none

/-- The `(day, location)` pair carried by a `data` line, with the
location decoded back into a `Location` record. -/
def dataPairOfLine (l : String) : Option (Int × Location) :=
  match dataDayOfLine l, (parseLine l).bind (lookupField · "location") with
  | some d, some locJ => (jsonToLoc locJ).map (fun loc => (d, loc))
  | _, _ => none

/-! ### Checks used to state the claims -/

/-- Interleaving of `data` lines with the per-day `status` lines: every
`data` line of day `d` is strictly preceded by a status line announcing
day `d`; every day-announcing status line strictly before it announces a
day at most `d` (so the data line sits strictly before the next day's
status line); and every day-announcing status line strictly after it
announces a strictly later day. -/
def dayInterleavingOk (ls : List String) : Bool :=
  (List.range ls.length).all fun i =>
    match (ls[i]?).bind dataDayOfLine with
    | none => true
    | some d =>
      ((List.range i).any fun j => ((ls[j]?).bind statusDayOfLine) == some d)
      && ((List.range i).all fun j =>
            match (ls[j]?).bind statusDayOfLine with
            | none => true
            | some d2 => decide (d2 ≤ d))
      && ((List.range ls.length).all fun j =>
            decide (j ≤ i) ||
            (match (ls[j]?).bind statusDayOfLine with
             | none => true
             | some d2 => decide (d < d2)))

/-- Shape of one `data` event: exactly the keys `type`, `day`,
`location`, `summary` in order; the `location` value is a single object
with exactly the keys `name`, `lat`, `lng`, `description`; and the
`day`/`summary` pair agrees with a day of the baked itinerary. -/
def dataEventOk (l : String) : Bool :=
  match parseLine l with
  | some j =>
    (keysOf j == some ["type", "day", "location", "summary"])
    && (match lookupField j "location" with
        | some loc => keysOf loc == some ["name", "lat", "lng", "description"]
        | none => false)
    && (match lookupField j "day", lookupField j "summary" with
        | some (.num d 0), some (.str s) =>
          MOCK_TOKYO_TRIP.any (fun dp => dp.day == d && dp.summary == s)
        | _, _ => false)
  | none => false

/-- After the fixed three-event prelude: every pause is 0.8 time units
and is immediately followed by a `data` line, and every non-`data` line
stands with no pause of its own. -/
def pacingTailOk : List StreamItem → Bool
  | [] => true
  | .sleep t :: .yield l :: rest =>
    (t == ⟨8, 1⟩) && (typeOfLine l == some "data") && pacingTailOk rest
  | .sleep _ :: _ => false
  | .yield l :: rest => (typeOfLine l != some "data") && pacingTailOk rest

/-- The full pacing script: 1 time unit after each of the two opening
status lines, 1.5 after the control line, then the 0.8-per-location
pacing of `pacingTailOk`, and nothing else. -/
def pacingOk (trace : List StreamItem) : Bool :=
  match trace with
  | .yield l0 :: .sleep t0 :: .yield l1 :: .sleep t1 :: .yield l2 :: .sleep t2 :: rest =>
    (typeOfLine l0 == some "status") && (t0 == ⟨1, 0⟩)
    && (typeOfLine l1 == some "status") && (t1 == ⟨1, 0⟩)
    && (typeOfLine l2 == some "control") && (t2 == ⟨15, 1⟩)
    && pacingTailOk rest
  | _ => false

/-! ### The generator with the dead accumulator removed (for the
refinement claim) -/

/-- The inner location loop with the `current_locations` accumulator and
its append deleted; everything else is unchanged. -/
def emitLocsNoAcc (day_plan : DayPlan) : List Location → List StreamItem
  | [] => []
  | loc :: rest =>
    let chunk : Json := .obj
      [ ("type", .str "data")
      , ("day", .num day_plan.day 0)
      , ("location", locJson loc)
      , ("summary", .str day_plan.summary) ]
    .sleep ⟨8, 1⟩ :: .yield (dumps chunk ++ "\n") :: emitLocsNoAcc day_plan rest

/-- Per-day emission built on the accumulator-free inner loop. -/
def emitDayNoAcc (day_plan : DayPlan) : List StreamItem :=
  .yield (dumps (.obj
      [ ("type", .str "status")
      , ("content", .str ("正在規劃第 " ++ toString day_plan.day ++ " 天：" ++ day_plan.summary)) ]) ++ "\n")
    :: emitLocsNoAcc day_plan day_plan.locations

/-- Outer day loop built on the accumulator-free inner loop. -/
def emitDaysNoAcc : List DayPlan → List StreamItem
  | [] => []
  | d :: rest => emitDayNoAcc d ++ emitDaysNoAcc rest

set_option linter.unusedVariables false in
/-- `ai_stream_generator` with the dead accumulator removed. -/
def ai_stream_generator_noacc (prompt : String) : List StreamItem :=
  [ .yield (dumps (.obj [("type", .str "status"), ("content", .str "正在分析您的旅遊需求...")]) ++ "\n")
  , .sleep ⟨1, 0⟩
  , .yield (dumps (.obj [("type", .str "status"), ("content", .str "正在搜尋東京熱門景點...")]) ++ "\n")
  , .sleep ⟨1, 0⟩
  , .yield (dumps (.obj
      [ ("type", .str "control")
      , ("action", .str "fly_to")
      , ("data", .obj [("lat", .num 356895 4), ("lng", .num 1396917 4), ("zoom", .num 10 0)]) ]) ++ "\n")
  , .sleep ⟨15, 1⟩ ]
  ++ emitDaysNoAcc MOCK_TOKYO_TRIP
  ++ [ .yield (dumps (.obj [("type", .str "status"), ("content", .str "行程規劃完成！")]) ++ "\n") ]

/-- The accumulator value never reaches any yielded item: the inner loop
is the same function for every starting accumulator. -/
theorem emitLocs_acc_irrelevant (d : DayPlan) :
    ∀ locs acc, emitLocs d acc locs = emitLocsNoAcc d locs
  | [], _ => rfl
  | loc :: rest, acc => by
    simp only [emitLocs, emitLocsNoAcc]
    exact congrArg _ (congrArg _ (emitLocs_acc_irrelevant d rest _))

/-! ### The claims -/

/-- C1: for the prompt `"Tokyo 3 days"`, the stream is exactly 12 NDJSON
lines in the order status, status, control, then for day 1 a status line
followed by 3 data lines, then for day 2 a status line followed by 3
data lines, then one final status line; the number of data lines equals
the total location count of the baked itinerary, namely 6 = 3 + 3. -/
theorem plan_tokyo_three_days_event_shape :
    (yields (ai_stream_generator "Tokyo 3 days")).map typeOfLine
      = [some "status", some "status", some "control",
         some "status", some "data", some "data", some "data",
         some "status", some "data", some "data", some "data",
         some "status"]
    ∧ (yields (ai_stream_generator "Tokyo 3 days")).length = 12
    ∧ (yields (ai_stream_generator "Tokyo 3 days")).filterMap dataDayOfLine = [1, 1, 1, 2, 2, 2]
    ∧ ((yields (ai_stream_generator "Tokyo 3 days")).countP
         (fun l => typeOfLine l == some "data"))
        = (MOCK_TOKYO_TRIP.map (fun d => d.locations.length)).sum
    ∧ (MOCK_TOKYO_TRIP.map (fun d => d.locations.length)).sum = 6 :=
  ⟨rfl, rfl, rfl, rfl, rfl⟩

/-- C2: the emitted trace (lines and sleeps alike) is identical for
every pair of prompts, the empty string included: the prompt is accepted
but never read. -/
theorem stream_prompt_independent (p1 p2 : String) :
    ai_stream_generator p1 = ai_stream_generator p2 :=
  rfl

/-- C3: every emitted line parses as one standalone JSON object, and
decoding the `location` object together with the `day` value of each
`data` line, in emission order, reproduces exactly the locations of the
baked itinerary day by day, in the source order (round-trip). -/
theorem stream_lines_json_roundtrip (p : String) :
    (yields (ai_stream_generator p)).all parsesAsObj = true
    ∧ (yields (ai_stream_generator p)).filterMap dataPairOfLine
        = MOCK_TOKYO_TRIP.flatMap (fun d => d.locations.map (fun loc => (d.day, loc))) :=
  ⟨rfl, rfl⟩

/-- C4: for every prompt the first two lines are status events, and the
third parses to exactly the control object with action `fly_to` whose
`data` payload has precisely the fields `lat`, `lng`, `zoom`, carrying
the trip's overall destination coordinates 35.6895 / 139.6917 and the
fixed zoom level 10. -/
theorem stream_opening_events (p : String) :
    ((yields (ai_stream_generator p)).take 2).map typeOfLine = [some "status", some "status"]
    ∧ ((yields (ai_stream_generator p))[2]?).bind parseLine
        = some (.obj [("type", .str "control"), ("action", .str "fly_to"),
            ("data", .obj [("lat", .num 356895 4), ("lng", .num 1396917 4), ("zoom", .num 10 0)])]) :=
  ⟨rfl, rfl⟩

/-- C5: every data line of a day sits strictly after that day's status
line and strictly before any later day's status line; the day indices of
data lines are 1-based, non-decreasing, strictly increasing across days,
match the source itinerary's numbering exactly, and within each day the
locations come in the source order. -/
theorem data_events_day_ordering (p : String) :
    dayInterleavingOk (yields (ai_stream_generator p)) = true
    ∧ (yields (ai_stream_generator p)).filterMap dataDayOfLine
        = MOCK_TOKYO_TRIP.flatMap (fun d => d.locations.map (fun _ => d.day))
    ∧ List.Chain' (· ≤ ·) ((yields (ai_stream_generator p)).filterMap dataDayOfLine)
    ∧ ((yields (ai_stream_generator p)).filterMap dataDayOfLine).all
        (fun d => decide (1 ≤ d)) = true
    ∧ MOCK_TOKYO_TRIP.map DayPlan.day = [1, 2]
    ∧ List.Chain' (· < ·) (MOCK_TOKYO_TRIP.map DayPlan.day)
    ∧ (yields (ai_stream_generator p)).filterMap dataPairOfLine
        = MOCK_TOKYO_TRIP.flatMap (fun d => d.locations.map (fun loc => (d.day, loc))) := by
  refine ⟨rfl, rfl, ?_, rfl, rfl, ?_, rfl⟩
  · have h : (yields (ai_stream_generator p)).filterMap dataDayOfLine
        = [1, 1, 1, 2, 2, 2] := rfl
    rw [h]
    norm_num [List.chain'_cons]
  · have h : MOCK_TOKYO_TRIP.map DayPlan.day = [1, 2] := rfl
    rw [h]
    norm_num [List.chain'_cons]

/-- C6: every data line carries exactly one location object, never a
batch: its key set is exactly `type`, `day`, `location`, `summary`, the
location object's key set is exactly `name`, `lat`, `lng`,
`description`, and the `summary` value equals the summary of the
itinerary day named by the `day` value. -/
theorem data_event_shape (p : String) :
    ((yields (ai_stream_generator p)).all
      (fun l => typeOfLine l != some "data" || dataEventOk l)) = true :=
  rfl

/-- C7: the last line of the stream is the completion status event
(`行程規劃完成！`), it is also the very last item of the trace (the
one-shot script ends right after it), and all 6 data lines of the
itinerary come before it. -/
theorem final_event_completion (p : String) :
    ((yields (ai_stream_generator p)).getLast?).bind parseLine
      = some (.obj [("type", .str "status"), ("content", .str "行程規劃完成！")])
    ∧ (ai_stream_generator p).getLast?
      = some (.yield (dumps (.obj
          [("type", .str "status"), ("content", .str "行程規劃完成！")]) ++ "\n"))
    ∧ ((yields (ai_stream_generator p)).dropLast).countP
        (fun l => typeOfLine l == some "data")
      = (MOCK_TOKYO_TRIP.map (fun d => d.locations.length)).sum :=
  ⟨rfl, rfl, rfl⟩

/-- C8: the scripted pauses are exactly 1 time unit after each of the
first two status lines, 1.5 after the control line, and 0.8 immediately
before each data line, with no other pause anywhere; they total
2 + 1.5 + 0.8 × 6 = 8.3 time units. -/
theorem scripted_pacing (p : String) :
    pacingOk (ai_stream_generator p) = true
    ∧ sleepsOf (ai_stream_generator p)
        = [⟨1, 0⟩, ⟨1, 0⟩, ⟨15, 1⟩, ⟨8, 1⟩, ⟨8, 1⟩, ⟨8, 1⟩, ⟨8, 1⟩, ⟨8, 1⟩, ⟨8, 1⟩]
    ∧ ((sleepsOf (ai_stream_generator p)).map Decimal.toRat).sum = 83/10 := by
  refine ⟨rfl, rfl, ?_⟩
  have h : sleepsOf (ai_stream_generator p)
      = [⟨1, 0⟩, ⟨1, 0⟩, ⟨15, 1⟩, ⟨8, 1⟩, ⟨8, 1⟩, ⟨8, 1⟩, ⟨8, 1⟩, ⟨8, 1⟩, ⟨8, 1⟩] := rfl
  rw [h]
  simp [Decimal.toRat]
  norm_num

/-- C9: the `current_locations` accumulator is observably dead: for
every prompt the generator produces the same line sequence, indeed the
same full trace, as the variant with the accumulator and its append
removed. -/
theorem accumulator_observably_dead (p : String) :
    yields (ai_stream_generator p) = yields (ai_stream_generator_noacc p)
    ∧ ai_stream_generator p = ai_stream_generator_noacc p :=
  ⟨rfl, rfl⟩

/-- C10: every yielded string ends with a newline character and contains
exactly one newline in total (non-ASCII content is escaped by the
encoder), so each yield is exactly one NDJSON line with one event. -/
theorem lines_single_newline (p : String) :
    ((yields (ai_stream_generator p)).all
      (fun l => (l.data.getLast? == some '\n') && (l.data.count '\n' == 1))) = true :=
  rfl

end Locus

